import Mathlib

/-!
Verification of the Egg Store backend (`src/main.py`) against its
specification.

The Python program is shallowly embedded: JSON-like documents are
association lists of `Value`s, the Mongo-style store is an explicit
`DBConn` state threaded through the handlers, and exceptional control
flow is `Except`.  Python `float` money arithmetic is idealised as exact
rationals (`ℚ`), with `round(x, 2)` modelled as round-half-to-even at two
decimal places, matching Python's rounding mode.  The modules
`database.py` and `schemas.py` are imported by `src/main.py` but are not
part of the sources; the definitions taken from them are marked
`Modelled from the spec:`.
-/

/-- A JSON/BSON-like value as handled by the Python program: `None`,
booleans, numbers (idealised as exact rationals), strings, and BSON
ObjectIds (kept as their 24-character lowercase hex form). -/
inductive Value where
  | vNull : Value
  | vBool (b : Bool) : Value
  | vNum (q : ℚ) : Value
  | vStr (s : String) : Value
  | vOid (hex : String) : Value
deriving DecidableEq, Repr

/-- A document (Python `dict` with string keys), as an association list. -/
abbrev Doc := List (String × Value)

/-- Python truthiness of a `Value` (used by `if d.get("_id"):`). -/
def Value.truthy : Value → Bool
  | .vNull => false
  | .vBool b => b
  | .vNum q => decide (q ≠ 0)
  | .vStr s => decide (s ≠ "")
  | .vOid _ => true

/-- Python `str()` of a `Value`.  `str` of a BSON ObjectId is its hex
string; the numeric rendering is only a stand-in, since the program only
ever stringifies `_id` fields, which are ObjectIds. -/
def Value.toStr : Value → String
  | .vNull => "None"
  | .vBool b => if b then "True" else "False"
  | .vNum q => toString q
  | .vStr s => s
  | .vOid h => h

/-- Python `d.get(k)`: the value at `k`, or `None` when absent. -/
def dget (d : Doc) (k : String) : Value :=
  match d.lookup k with
  | some v => v
  | none => Value.vNull

/-- Python `d.get(k, dflt)`. -/
def dgetD (d : Doc) (k : String) (dflt : Value) : Value :=
  match d.lookup k with
  | some v => v
  | none => dflt

/-- Python `d.pop(k)` restricted to its effect on the dictionary:
removal of the key. -/
def dpop (d : Doc) (k : String) : Doc :=
  d.filter (fun kv => kv.1 != k)

/-- Python `d[k] = v`: any previous binding of `k` is replaced. -/
def dset (d : Doc) (k : String) (v : Value) : Doc :=
  dpop d k ++ [(k, v)]

/-- `to_str_id` from `src/main.py` lines 24-28: on a copy of the
document, when `_id` is present and truthy, it is removed and re-exposed
as the string field `id`. -/
def to_str_id (doc : Doc) : Doc :=
  let d := doc
  if (dget d "_id").truthy then
    dset (dpop d "_id") "id" (Value.vStr (dget d "_id").toStr)
  else d

/-- Round-half-to-even to an integer, the rounding mode of Python's
`round`.  `q.num.fdiv q.den` is `⌊q⌋` (floor division of the numerator
by the positive denominator), written so it evaluates by reduction. -/
def roundHalfEven (q : ℚ) : ℤ :=
  let f : ℤ := q.num.fdiv q.den
  let r : ℚ := q - f
  if r < 1/2 then f
  else if 1/2 < r then f + 1
  else if 2 ∣ f then f else f + 1

/-- Python `round(x, 2)` on the exact-rational idealisation of floats. -/
def round2 (q : ℚ) : ℚ :=
  (roundHalfEven (q * 100) : ℚ) / 100

/-- A hexadecimal digit, as accepted by the BSON `ObjectId` constructor. -/
def isHexDigitChar (c : Char) : Bool :=
  c.isDigit || (('a' ≤ c) && (c ≤ 'f')) || (('A' ≤ c) && (c ≤ 'F'))

/-- Lowercasing of a hex string (ObjectId values compare
case-insensitively, so parses are normalised to lowercase). -/
def lowerHex (s : String) : String :=
  String.mk (s.data.map Char.toLower)

/-- Python `ObjectId(s)`: succeeds exactly on 24-character hex strings,
normalising to lowercase; anything else raises (modelled as `none`). -/
def parseObjectId (s : String) : Option String :=
  if s.length = 24 && s.toList.all isHexDigitChar then some (lowerHex s)
  else none

/-- The store-assigned ObjectId for the `n`-th inserted record: `n` in
lowercase hex, left-padded with zeros to 24 characters. -/
def oidOfNat (n : ℕ) : String :=
  let s := String.mk (Nat.toDigits 16 n)
  String.mk (List.replicate (24 - s.length) '0') ++ s

/-- Modelled from the spec: `schemas.Product` (§3 of the spec;
`schemas.py` is not in the sources): title, description, price ≥ 0,
category, in_stock, image URL. -/
structure Product where
  title : String
  description : String
  price : ℚ
  category : String
  in_stock : Bool
  image : String
deriving DecidableEq, Repr

/-- Pydantic `model_dump` of a `Product`, as the stored document. -/
def Product.model_dump (p : Product) : Doc :=
  [("title", Value.vStr p.title),
   ("description", Value.vStr p.description),
   ("price", Value.vNum p.price),
   ("category", Value.vStr p.category),
   ("in_stock", Value.vBool p.in_stock),
   ("image", Value.vStr p.image)]

/-- Modelled from the spec: `schemas.OrderItem` (§3): one order line with
price/title snapshotted at order time and `subtotal = price × quantity`. -/
structure OrderItem where
  product_id : String
  title : String
  price : ℚ
  quantity : ℕ
  subtotal : ℚ
deriving DecidableEq, Repr

/-- Modelled from the spec: `schemas.Order` (§3): the persisted order
record. -/
structure Order where
  items : List OrderItem
  customer_name : String
  email : String
  address : String
  payment_method : String
  total_amount : ℚ
  status : String
deriving DecidableEq, Repr

/-- The state behind the nullable connection `db` exported by
`database.py`: the `product` and `order` collections, the id counter of
the store, and environment flags describing whether individual storage
calls raise (used to model the spec's "storage call failure" scenarios).
`name` and `collNames` support the diagnostics endpoint. -/
structure DBConn where
  products : List Doc
  orders : List Order
  nextId : ℕ
  findFails : Bool
  insertFails : Bool
  name : String
  collNames : List String
  listCollFails : Option String
deriving DecidableEq, Repr

/-- `db["product"].find_one({"_id": ObjectId(pid)})` wrapped in the
handler's `try/except` (lines 145-148): a malformed id or a raising
`find_one` both yield `None`. -/
def find_one_product (c : DBConn) (pid : String) : Option Doc :=
  match parseObjectId pid with
  | none => none
  | some oid =>
    if c.findFails then none
    else c.products.find? (fun d => decide (dget d "_id" = Value.vOid oid))

/-- Mongo `insert_one` on the `product` collection: the store assigns a
fresh ObjectId `_id`. -/
def insert_product (c : DBConn) (d : Doc) : DBConn :=
  { c with
    products := c.products ++ [("_id", Value.vOid (oidOfNat c.nextId)) :: d],
    nextId := c.nextId + 1 }

/-- The five sample products of `seed_products` (lines 38-79). -/
def sample_products : List Product :=
  [{ title := "Free-Range Eggs (12 pcs)",
     description := "Fresh farm free-range chicken eggs. Rich yolks and great taste.",
     price := 4.99, category := "chicken", in_stock := true,
     image := "https://images.unsplash.com/photo-1517959105821-eaf2591984dd?q=80&w=1200&auto=format&fit=crop" },
   { title := "Organic Eggs (12 pcs)",
     description := "Certified organic eggs from pasture-raised hens.",
     price := 5.99, category := "organic", in_stock := true,
     image := "https://images.unsplash.com/photo-1518806118471-f28b20a1d79d?q=80&w=1200&auto=format&fit=crop" },
   { title := "Omega-3 Enriched Eggs (12 pcs)",
     description := "Omega-3 enriched for a healthier choice.",
     price := 6.49, category := "enriched", in_stock := true,
     image := "https://images.unsplash.com/photo-1522335789203-aabd1fc54bc9?q=80&w=1200&auto=format&fit=crop" },
   { title := "Quail Eggs (24 pcs)",
     description := "Delicate and delicious quail eggs.",
     price := 7.49, category := "quail", in_stock := true,
     image := "https://images.unsplash.com/photo-1577208288347-0d412b7a4f35?q=80&w=1200&auto=format&fit=crop" },
   { title := "Duck Eggs (6 pcs)",
     description := "Large and rich duck eggs for special recipes.",
     price := 4.49, category := "duck", in_stock := true,
     image := "https://images.unsplash.com/photo-1517957741781-7f3fd1563bb3?q=80&w=1200&auto=format&fit=crop" }]

/-- `seed_products` from `src/main.py` lines 31-82, run once at process
start (line 86): a no-op when `db is None` or `count_documents({}) > 0`;
otherwise it inserts the five sample products. -/
def seed_products (db : Option DBConn) : Option DBConn :=
  match db with
  | none => db
  | some c =>
    if 0 < c.products.length then db
    else some (sample_products.foldl (fun acc p => insert_product acc p.model_dump) c)

/-- The hardcoded fallback static product of `list_products`
(lines 114-124). -/
def fallback_product : Doc :=
  [("id", Value.vStr "0"),
   ("title", Value.vStr "Free-Range Eggs (12 pcs)"),
   ("description", Value.vStr "Fresh farm free-range chicken eggs. Rich yolks and great taste."),
   ("price", Value.vNum 4.99),
   ("category", Value.vStr "chicken"),
   ("in_stock", Value.vBool true),
   ("image", Value.vStr "https://images.unsplash.com/photo-1517959105821-eaf2591984dd?q=80&w=1200&auto=format&fit=crop")]

/-- `GET /api/products` (`list_products`, lines 110-126).  The `find`
call is not guarded by any `try/except`, so a raising storage call
propagates out of the handler (`Except.error`). -/
def list_products (db : Option DBConn) : Except String (List Doc) :=
  match db with
  | none => Except.ok [fallback_product]
  | some c =>
    if c.findFails then Except.error "storage failure"
    else Except.ok (c.products.map to_str_id)

/-- One element of the request's `items` list (`OrderItemInput`,
lines 91-93); pydantic has already enforced `quantity ≥ 1` when the
handler runs, which theorems carry as a hypothesis. -/
structure OrderItemInput where
  product_id : String
  quantity : ℕ
deriving DecidableEq, Repr

/-- `CreateOrderInput` (lines 95-100); a missing `payment_method` has
already been defaulted to `"card"` by pydantic. -/
structure CreateOrderInput where
  items : List OrderItemInput
  customer_name : String
  email : String
  address : String
  payment_method : String
deriving DecidableEq, Repr

/-- How `create_order` leaves the handler: an HTTPException (`err`), an
uncaught exception (`exn`), or the success body
`{"order_id": _, "status": _, "total": _}`. -/
inductive Resp where
  | ok (order_id : String) (status : String) (total : ℚ) : Resp
  | err (code : ℕ) (detail : String) : Resp
  | exn (msg : String) : Resp
deriving DecidableEq, Repr

/-- An error escaping the per-item loop of `create_order`: a raised
`HTTPException`, or an uncaught exception. -/
inductive HandlerErr where
  | http (code : ℕ) (detail : String) : HandlerErr
  | exn (msg : String) : HandlerErr
deriving DecidableEq, Repr

/-- Python `float(v)` on the values a stored document can hold.  Numeric
strings are not modelled (they never occur in documents written by this
program), so every non-numeric value raises. -/
def pyFloat : Value → Except String ℚ
  | .vNum q => Except.ok q
  | .vBool b => Except.ok (if b then 1 else 0)
  | .vNull => Except.error "float() argument must not be None"
  | .vStr _ => Except.error "could not convert string to float"
  | .vOid _ => Except.error "float() argument must not be ObjectId"

/-- `prod.get("title", "Eggs")` flowing into the `str`-typed
`OrderItem.title`: a present non-string value fails pydantic validation
(an uncaught exception in the handler). -/
def titleValue : Option Value → Except String String
  | none => Except.ok "Eggs"
  | some (.vStr s) => Except.ok s
  | some _ => Except.error "validation error: title must be a string"

/-- The per-item resolution of `create_order` (lines 139-152): fallback
price/title when `db is None`; otherwise look the product up (malformed
ids and raising finds both give `None`, hence 404) and convert its
`price`/`title` fields. -/
def resolve_item (db : Option DBConn) (it : OrderItemInput) :
    Except HandlerErr (ℚ × String) :=
  match db with
  | none => Except.ok (4.99, "Free-Range Eggs (12 pcs)")
  | some c =>
    match find_one_product c it.product_id with
    | none => Except.error (HandlerErr.http 404 ("Product not found: " ++ it.product_id))
    | some prod =>
      match pyFloat (dgetD prod "price" (Value.vNum 0)) with
      | Except.error m => Except.error (HandlerErr.exn m)
      | Except.ok price =>
        match titleValue (prod.lookup "title") with
        | Except.error m => Except.error (HandlerErr.exn m)
        | Except.ok title => Except.ok (price, title)

/-- The price `resolve_item` yields on success (0 as a junk default on
failure; only used beneath a resolvability hypothesis). -/
def resolvedPrice (db : Option DBConn) (it : OrderItemInput) : ℚ :=
  match resolve_item db it with
  | Except.ok pt => pt.1
  | Except.error _ => 0

/-- The title `resolve_item` yields on success. -/
def resolvedTitle (db : Option DBConn) (it : OrderItemInput) : String :=
  match resolve_item db it with
  | Except.ok pt => pt.2
  | Except.error _ => ""

/-- Whether `resolve_item` succeeds on this item. -/
def resolves_ok (db : Option DBConn) (it : OrderItemInput) : Bool :=
  match resolve_item db it with
  | Except.ok _ => true
  | Except.error _ => false

/-- The `OrderItem` appended for a resolvable input item (line 155). -/
def OrderItem.ofInput (db : Option DBConn) (it : OrderItemInput) : OrderItem :=
  { product_id := it.product_id,
    title := resolvedTitle db it,
    price := resolvedPrice db it,
    quantity := it.quantity,
    subtotal := resolvedPrice db it * it.quantity }

/-- The `for it in payload.items` loop of `create_order` (lines 138-155),
with its `items` and `total` accumulators; the first failing item aborts
the whole loop. -/
def build_items (db : Option DBConn) (acc : List OrderItem) (total : ℚ) :
    List OrderItemInput → Except HandlerErr (List OrderItem × ℚ)
  | [] => Except.ok (acc, total)
  | it :: rest =>
    match resolve_item db it with
    | Except.error e => Except.error e
    | Except.ok (price, title) =>
      let subtotal := price * it.quantity
      build_items db
        (acc ++ [{ product_id := it.product_id, title := title, price := price,
                   quantity := it.quantity, subtotal := subtotal }])
        (total + subtotal) rest

/-- The `Order` built at lines 160-168: payment methods outside
`{"card", "cod"}` are normalised to `"card"` in the record only, while
`status` is computed from the raw `payment_method` (line 158). -/
def built_order (payload : CreateOrderInput) (items : List OrderItem) (total : ℚ) :
    Order :=
  { items := items,
    customer_name := payload.customer_name,
    email := payload.email,
    address := payload.address,
    payment_method :=
      if payload.payment_method ∈ (["card", "cod"] : List String) then
        payload.payment_method
      else "card",
    total_amount := round2 total,
    status := if payload.payment_method = "card" then "paid" else "pending" }

/-- Modelled from the spec: `database.create_document` (§2's persistence
adapter; `database.py` is not in the sources).  It inserts the record
into the named collection and returns the store-assigned id as a string;
it raises when no connection is configured or when the storage call
fails. -/
def create_document (db : Option DBConn) (_coll : String) (ord : Order) :
    Except String (String × DBConn) :=
  match db with
  | none => Except.error "Database not available"
  | some c =>
    if c.insertFails then Except.error "storage failure"
    else
      Except.ok (oidOfNat c.nextId,
        { c with orders := c.orders ++ [ord], nextId := c.nextId + 1 })

/-- The outcome of one `POST /api/orders` request: the response (or
error) together with the storage state after the request. -/
structure CreateOrderOutcome where
  resp : Resp
  db' : Option DBConn
deriving DecidableEq, Repr

/-- `POST /api/orders` (`create_order`, lines 129-176). -/
def create_order (db : Option DBConn) (payload : CreateOrderInput) :
    CreateOrderOutcome :=
  if payload.items = [] then ⟨Resp.err 400 "No items in order", db⟩
  else
    match build_items db [] 0 payload.items with
    | Except.error (HandlerErr.http code detail) => ⟨Resp.err code detail, db⟩
    | Except.error (HandlerErr.exn m) => ⟨Resp.exn m, db⟩
    | Except.ok (items, total) =>
      let status := if payload.payment_method = "card" then "paid" else "pending"
      let order_model := built_order payload items total
      match create_document db "order" order_model with
      | Except.error _ => ⟨Resp.ok "demo-order-id" status (round2 total), db⟩
      | Except.ok (order_id, c2) => ⟨Resp.ok order_id status (round2 total), some c2⟩

/-- The orders held by a possibly-absent storage state. -/
def ordersOf (db : Option DBConn) : List Order :=
  match db with
  | none => []
  | some c => c.orders

/-- A stored product document whose `price` field converts under
`float()` (absent, numeric, or boolean). -/
def priceOk (d : Doc) : Bool :=
  match d.lookup "price" with
  | none => true
  | some (.vNum _) => true
  | some (.vBool _) => true
  | some _ => false

/-- A stored product document whose `title` field satisfies the `str`
type of `OrderItem.title` (absent or a string). -/
def titleOk (d : Doc) : Bool :=
  match d.lookup "title" with
  | none => true
  | some (.vStr _) => true
  | some _ => false

/-- Every stored product document is well formed, as is the case for
every document this program itself writes (the seeded `Product` dumps). -/
def WFdb (c : DBConn) : Bool :=
  c.products.all (fun d => priceOk d && titleOk d)

/-- The process environment read by `GET /test`: whether `DATABASE_URL`
and `DATABASE_NAME` are set. -/
structure Env where
  database_url_set : Bool
  database_name_set : Bool
deriving DecidableEq, Repr

/-- The response dictionary of `GET /test` (lines 182-189).  The
`database_url`/`database_name` slots start as Python `None` (hence
`Option String`). -/
structure TestResponse where
  backend : String
  database : String
  database_url : Option String
  database_name : Option String
  connection_status : String
  collections : List String
deriving DecidableEq, Repr

/-- `GET /test` (`test_database`, lines 179-212), step for step: the
initial dictionary, the `db` branch with the inner `try` around
`list_collection_names`, the `else` branch, and the final unconditional
environment-variable overwrites of `database_url`/`database_name`.  The
outer `try` has no raising operation left in it, so its `except` arm is
dead.  The handler reads but never writes the storage state. -/
def test_database (db : Option DBConn) (env : Env) : TestResponse :=
  let response : TestResponse :=
    { backend := "✅ Running", database := "❌ Not Available",
      database_url := none, database_name := none,
      connection_status := "Not Connected", collections := [] }
  let response :=
    match db with
    | some c =>
      let response :=
        { response with
          database := "✅ Available",
          database_url := some "✅ Configured",
          database_name := some c.name,
          connection_status := "Connected" }
      match c.listCollFails with
      | none =>
        { response with
          collections := c.collNames.take 10,
          database := "✅ Connected & Working" }
      | some e =>
        { response with database := "⚠️  Connected but Error: " ++ e.take 50 }
    | none => { response with database := "⚠️  Available but not initialized" }
  { response with
    database_url := some (if env.database_url_set then "✅ Set" else "❌ Not Set"),
    database_name := some (if env.database_name_set then "✅ Set" else "❌ Not Set") }

/-! ### Concrete fixtures used by witnesses and counterexamples -/

/-- A stored product document as Mongo holds it after seeding. -/
def prodDoc1 : Doc :=
  [("_id", Value.vOid "0123456789abcdef01234567"),
   ("title", Value.vStr "Free-Range Eggs (12 pcs)"),
   ("price", Value.vNum 4.99),
   ("category", Value.vStr "chicken"),
   ("in_stock", Value.vBool true)]

/-- A healthy configured storage state holding one product. -/
def cOne : DBConn :=
  { products := [prodDoc1], orders := [], nextId := 0, findFails := false,
    insertFails := false, name := "egg_store", collNames := ["product"],
    listCollFails := none }

/-- A one-item order request paying by card. -/
def pCard : CreateOrderInput :=
  { items := [{ product_id := "0123456789abcdef01234567", quantity := 2 }],
    customer_name := "Ada", email := "ada@example.com", address := "1 Farm Rd",
    payment_method := "card" }

/-- The same order request with an unrecognised payment method. -/
def pBitcoin : CreateOrderInput :=
  { pCard with payment_method := "bitcoin" }

/-- An order request referencing a malformed product id. -/
def pBadId : CreateOrderInput :=
  { pCard with items := [{ product_id := "zz", quantity := 1 }] }

/-- An order request with an empty items list. -/
def pEmpty : CreateOrderInput :=
  { pCard with items := [] }

/-- An order request whose second item is the first unresolvable one. -/
def pMixed : CreateOrderInput :=
  { pCard with
    items := [{ product_id := "0123456789abcdef01234567", quantity := 1 },
              { product_id := "zz", quantity := 2 },
              { product_id := "yy", quantity := 3 }] }

/-- The healthy state with a `find` that raises. -/
def cFindFail : DBConn :=
  { cOne with findFails := true }

/-- The healthy state with an `insert` that raises. -/
def cInsertFail : DBConn :=
  { cOne with insertFails := true }

/-- A configured state whose product collection is empty. -/
def cEmpty : DBConn :=
  { cOne with products := [] }

/-- The products held by a possibly-absent storage state. -/
def productsOf (db : Option DBConn) : List Doc :=
  match db with
  | none => []
  | some c => c.products

/-! ### Helper lemmas -/

lemma lookup_cons (a k : String) (b : Value) (l : Doc) :
    ((k, b) :: l).lookup a = if a = k then some b else l.lookup a := by
  by_cases h : a = k
  · subst h; simp [List.lookup]
  · have hb : (a == k) = false := beq_eq_false_iff_ne.mpr h
    simp [List.lookup, hb, h]

lemma lookup_dpop (d : Doc) (k k' : String) :
    (dpop d k).lookup k' = if k' = k then none else d.lookup k' := by
  induction d with
  | nil => simp [dpop]
  | cons kv t ih =>
    obtain ⟨a, b⟩ := kv
    by_cases ha : a = k
    · subst ha
      have h1 : dpop ((a, b) :: t) a = dpop t a := by
        simp [dpop, List.filter_cons]
      rw [h1, ih]
      by_cases hk' : k' = a
      · simp [hk']
      · simp [hk', lookup_cons]
    · have h1 : dpop ((a, b) :: t) k = (a, b) :: dpop t k := by
        simp [dpop, List.filter_cons, bne_iff_ne, ha]
      rw [h1, lookup_cons, ih, lookup_cons]
      by_cases hk' : k' = a
      · subst hk'; simp [ha]
      · simp [hk']

lemma lookup_append (l₁ l₂ : Doc) (k : String) :
    (l₁ ++ l₂).lookup k = (l₁.lookup k).or (l₂.lookup k) := by
  induction l₁ with
  | nil => simp
  | cons kv t ih =>
    obtain ⟨a, b⟩ := kv
    rw [List.cons_append, lookup_cons, lookup_cons]
    by_cases h : k = a <;> simp [h, ih]

lemma lookup_dset (d : Doc) (k k' : String) (v : Value) :
    (dset d k v).lookup k' = if k' = k then some v else d.lookup k' := by
  simp only [dset]
  rw [lookup_append, lookup_dpop]
  by_cases h : k' = k
  · simp [h, lookup_cons]
  · simp only [h, if_false, lookup_cons, List.lookup_nil, if_neg h]
    cases d.lookup k' <;> simp

/-! ### C10: the `to_str_id` transformation -/

/-- C10: when storage is available, `GET /api/products` maps `to_str_id`
over the stored documents; on a stored document (whose `_id` is a
store-assigned ObjectId) `to_str_id` removes `_id`, adds `id` holding
its string form, and leaves every other field unchanged.  The embedding
is a pure function on the document, reflecting that the Python code
works on `doc.copy()` and never mutates its input. -/
theorem to_str_id_stored_doc (doc : Doc) (s : String)
    (h : doc.lookup "_id" = some (Value.vOid s)) :
    (to_str_id doc).lookup "_id" = none ∧
    (to_str_id doc).lookup "id" = some (Value.vStr s) ∧
    (∀ k, k ≠ "_id" → k ≠ "id" → (to_str_id doc).lookup k = doc.lookup k) ∧
    (∀ c : DBConn, c.findFails = false →
      list_products (some c) = Except.ok (c.products.map to_str_id)) := by
  have hd : dget doc "_id" = Value.vOid s := by simp [dget, h]
  have hu : to_str_id doc = dset (dpop doc "_id") "id" (Value.vStr s) := by
    simp [to_str_id, hd, Value.truthy, Value.toStr]
  refine ⟨?_, ?_, ?_, ?_⟩
  · rw [hu, lookup_dset]
    simp [lookup_dpop]
  · rw [hu, lookup_dset]
    simp
  · intro k hk1 hk2
    rw [hu, lookup_dset, lookup_dpop]
    simp [hk1, hk2]
  · intro c hc
    simp [list_products, hc]

/-- Witness for C10 at the concrete stored document `prodDoc1`. -/
theorem to_str_id_stored_doc_witness :
    (to_str_id prodDoc1).lookup "_id" = none ∧
    (to_str_id prodDoc1).lookup "id" =
      some (Value.vStr "0123456789abcdef01234567") ∧
    (to_str_id prodDoc1).lookup "price" = prodDoc1.lookup "price" :=
  ⟨(to_str_id_stored_doc prodDoc1 "0123456789abcdef01234567" (by decide)).1,
   (to_str_id_stored_doc prodDoc1 "0123456789abcdef01234567" (by decide)).2.1,
   (to_str_id_stored_doc prodDoc1 "0123456789abcdef01234567" (by decide)).2.2.1
     "price" (by decide) (by decide)⟩

/-! ### C7: the diagnostics endpoint -/

/-- C7: `GET /test` is a total pure function of the storage state and
environment — it never throws and has no side effects (the embedding
neither returns a modified state nor can fail).  Its `database` field is
always one of the defined status strings, and its collections list holds
at most 10 names. -/
theorem test_database_total_and_safe (db : Option DBConn) (env : Env) :
    ((test_database db env).database = "✅ Connected & Working" ∨
     (test_database db env).database = "⚠️  Available but not initialized" ∨
     ∃ e, (test_database db env).database = "⚠️  Connected but Error: " ++ e) ∧
    (test_database db env).collections.length ≤ 10 ∧
    (test_database db env).backend = "✅ Running" ∧
    (test_database db env).connection_status =
      (if db.isSome then "Connected" else "Not Connected") := by
  cases db with
  | none => simp [test_database]
  | some c =>
    cases h : c.listCollFails with
    | none =>
      refine ⟨Or.inl ?_, ?_, ?_, ?_⟩ <;>
        simp [test_database, h, List.length_take]
    | some e =>
      refine ⟨Or.inr (Or.inr ⟨e.take 50, ?_⟩), ?_, ?_, ?_⟩ <;>
        simp [test_database, h]

/-! ### Lemmas about item resolution and the order loop -/

lemma resolve_item_eq_of_ok (db : Option DBConn) (it : OrderItemInput)
    (h : resolves_ok db it = true) :
    resolve_item db it = Except.ok (resolvedPrice db it, resolvedTitle db it) := by
  unfold resolves_ok at h
  cases hre : resolve_item db it with
  | ok pt => simp [resolvedPrice, resolvedTitle, hre]
  | error e => rw [hre] at h; simp at h

lemma resolves_ok_none (it : OrderItemInput) : resolves_ok none it = true := rfl

lemma resolvedPrice_none (it : OrderItemInput) :
    resolvedPrice none it = 4.99 := rfl

lemma resolve_item_not_found (c : DBConn) (it : OrderItemInput)
    (h : find_one_product c it.product_id = none) :
    resolve_item (some c) it =
      Except.error (HandlerErr.http 404 ("Product not found: " ++ it.product_id)) := by
  simp [resolve_item, h]

lemma pyFloat_ok_of_priceOk (d : Doc) (h : priceOk d = true) :
    ∃ q, pyFloat (dgetD d "price" (Value.vNum 0)) = Except.ok q := by
  unfold priceOk at h
  unfold dgetD
  cases hl : d.lookup "price" with
  | none => exact ⟨0, rfl⟩
  | some v => rw [hl] at h; cases v <;> simp_all [pyFloat]

lemma titleValue_ok_of_titleOk (d : Doc) (h : titleOk d = true) :
    ∃ s, titleValue (d.lookup "title") = Except.ok s := by
  unfold titleOk at h
  cases hl : d.lookup "title" with
  | none => exact ⟨"Eggs", rfl⟩
  | some v => rw [hl] at h; cases v <;> simp_all [titleValue]

lemma resolves_ok_of_found (c : DBConn) (it : OrderItemInput)
    (hwf : WFdb c = true) (hfind : find_one_product c it.product_id ≠ none) :
    resolves_ok (some c) it = true := by
  obtain ⟨d, hd⟩ := Option.ne_none_iff_exists'.mp hfind
  have hmem : d ∈ c.products := by
    unfold find_one_product at hd
    cases hp : parseObjectId it.product_id with
    | none => rw [hp] at hd; simp at hd
    | some oid =>
      rw [hp] at hd
      by_cases hf : c.findFails = true
      · simp [hf] at hd
      · simp only [hf, if_false, Bool.false_eq_true] at hd
        exact List.mem_of_find?_eq_some hd
  have hok := (List.all_eq_true.mp hwf) d hmem
  rw [Bool.and_eq_true] at hok
  obtain ⟨hpq, hts⟩ := hok
  obtain ⟨q, hq⟩ := pyFloat_ok_of_priceOk d hpq
  obtain ⟨s, hs⟩ := titleValue_ok_of_titleOk d hts
  simp [resolves_ok, resolve_item, hd, hq, hs]

lemma build_items_ok (db : Option DBConn) (l : List OrderItemInput)
    (h : ∀ it ∈ l, resolves_ok db it = true) :
    ∀ acc t, build_items db acc t l =
      Except.ok (acc ++ l.map (OrderItem.ofInput db),
        t + (l.map (fun it => resolvedPrice db it * it.quantity)).sum) := by
  induction l with
  | nil => intro acc t; simp [build_items]
  | cons it rest ih =>
    intro acc t
    have h1 := resolve_item_eq_of_ok db it (h it (by simp))
    have h2 : ∀ j ∈ rest, resolves_ok db j = true := fun j hj => h j (by simp [hj])
    simp only [build_items, h1]
    rw [ih h2]
    simp [OrderItem.ofInput, List.append_assoc, add_assoc]

lemma build_items_first_err (db : Option DBConn) (e : HandlerErr) :
    ∀ (l₁ : List OrderItemInput) (bad : OrderItemInput) (l₂ : List OrderItemInput),
      (∀ it ∈ l₁, resolves_ok db it = true) →
      resolve_item db bad = Except.error e →
      ∀ acc t, build_items db acc t (l₁ ++ bad :: l₂) = Except.error e := by
  intro l₁
  induction l₁ with
  | nil =>
    intro bad l₂ _ hbad acc t
    simp [build_items, hbad]
  | cons it rest ih =>
    intro bad l₂ h hbad acc t
    have h1 := resolve_item_eq_of_ok db it (h it (by simp))
    rw [List.cons_append]
    simp only [build_items, h1]
    exact ih bad l₂ (fun j hj => h j (by simp [hj])) hbad _ _

lemma exists_first_bad {α : Type} (p : α → Bool) :
    ∀ l : List α, (∃ x ∈ l, p x = false) →
      ∃ l₁ x l₂, l = l₁ ++ x :: l₂ ∧ (∀ y ∈ l₁, p y = true) ∧ p x = false := by
  intro l
  induction l with
  | nil => simp
  | cons a t ih =>
    intro hex
    cases ha : p a with
    | false => exact ⟨[], a, t, rfl, by simp, ha⟩
    | true =>
      have hext : ∃ x ∈ t, p x = false := by
        obtain ⟨x, hx, hpx⟩ := hex
        cases List.mem_cons.mp hx with
        | inl hxa => subst hxa; rw [ha] at hpx; cases hpx
        | inr hxt => exact ⟨x, hxt, hpx⟩
      obtain ⟨l₁, x, l₂, hsplit, hall, hx⟩ := ih hext
      refine ⟨a :: l₁, x, l₂, by rw [hsplit]; rfl, ?_, hx⟩
      intro y hy
      cases List.mem_cons.mp hy with
      | inl hya => subst hya; exact ha
      | inr hyl => exact hall y hyl

lemma create_order_ok_shape (db : Option DBConn) (payload : CreateOrderInput)
    (h1 : payload.items ≠ [])
    (h4 : ∀ it ∈ payload.items, resolves_ok db it = true) :
    create_order db payload =
      (match create_document db "order"
          (built_order payload (payload.items.map (OrderItem.ofInput db))
            ((payload.items.map (fun it => resolvedPrice db it * it.quantity)).sum)) with
       | Except.error _ =>
         ⟨Resp.ok "demo-order-id"
            (if payload.payment_method = "card" then "paid" else "pending")
            (round2 ((payload.items.map (fun it => resolvedPrice db it * it.quantity)).sum)), db⟩
       | Except.ok (order_id, c2) =>
         ⟨Resp.ok order_id
            (if payload.payment_method = "card" then "paid" else "pending")
            (round2 ((payload.items.map (fun it => resolvedPrice db it * it.quantity)).sum)),
          some c2⟩) := by
  unfold create_order
  rw [if_neg h1, build_items_ok db payload.items h4 [] 0]
  simp

/-! ### C1: response total and order total -/

/-- C1: for every valid order input (non-empty items, each quantity ≥ 1,
every product reference resolvable), the `total` of the response is the
sum over items of resolved price × quantity rounded to 2 decimal places,
and the order record handed to persistence has `total_amount` equal to
the sum of the per-item `subtotal`s (each `subtotal = price × quantity`)
rounded to cents.  Float arithmetic is idealised as exact rationals. -/
theorem create_order_total_correct (db : Option DBConn) (payload : CreateOrderInput)
    (h1 : payload.items ≠ [])
    (h2 : ∀ it ∈ payload.items, 1 ≤ it.quantity)
    (h4 : ∀ it ∈ payload.items, resolves_ok db it = true) :
    ∃ oid db2,
      create_order db payload =
        ⟨Resp.ok oid (if payload.payment_method = "card" then "paid" else "pending")
          (round2 ((payload.items.map
            (fun it => resolvedPrice db it * it.quantity)).sum)), db2⟩ ∧
      (built_order payload (payload.items.map (OrderItem.ofInput db))
          ((payload.items.map (fun it => resolvedPrice db it * it.quantity)).sum)).total_amount =
        round2 (((payload.items.map (OrderItem.ofInput db)).map OrderItem.subtotal).sum) ∧
      (∀ oi ∈ payload.items.map (OrderItem.ofInput db),
        oi.subtotal = oi.price * oi.quantity) := by
  have hshape := create_order_ok_shape db payload h1 h4
  have hsub : ((payload.items.map (OrderItem.ofInput db)).map OrderItem.subtotal) =
      payload.items.map (fun it => resolvedPrice db it * it.quantity) := by
    rw [List.map_map]; rfl
  have hsubs : ∀ oi ∈ payload.items.map (OrderItem.ofInput db),
      oi.subtotal = oi.price * oi.quantity := by
    intro oi hoi
    obtain ⟨it, _, rfl⟩ := List.mem_map.mp hoi
    rfl
  cases hcd : create_document db "order"
      (built_order payload (payload.items.map (OrderItem.ofInput db))
        ((payload.items.map (fun it => resolvedPrice db it * it.quantity)).sum)) with
  | error m =>
    rw [hcd] at hshape
    exact ⟨"demo-order-id", db, hshape, by rw [hsub]; rfl, hsubs⟩
  | ok pr =>
    obtain ⟨oid, c2⟩ := pr
    rw [hcd] at hshape
    exact ⟨oid, some c2, hshape, by rw [hsub]; rfl, hsubs⟩

/-- Witness for C1: the fallback path with a two-egg card order. -/
theorem create_order_total_correct_witness :
    ∃ oid db2,
      create_order none pCard =
        ⟨Resp.ok oid (if pCard.payment_method = "card" then "paid" else "pending")
          (round2 ((pCard.items.map
            (fun it => resolvedPrice none it * it.quantity)).sum)), db2⟩ ∧
      (built_order pCard (pCard.items.map (OrderItem.ofInput none))
          ((pCard.items.map (fun it => resolvedPrice none it * it.quantity)).sum)).total_amount =
        round2 (((pCard.items.map (OrderItem.ofInput none)).map OrderItem.subtotal).sum) ∧
      (∀ oi ∈ pCard.items.map (OrderItem.ofInput none),
        oi.subtotal = oi.price * oi.quantity) :=
  create_order_total_correct none pCard (by decide) (by decide) (by decide)

/-! ### C4: empty items -/

/-- C4: a request with an empty `items` list is rejected with the
400-class error `"No items in order"` and the storage state is returned
unchanged — no order is ever persisted. -/
theorem create_order_empty_items (db : Option DBConn) (payload : CreateOrderInput)
    (h : payload.items = []) :
    create_order db payload = ⟨Resp.err 400 "No items in order", db⟩ := by
  simp [create_order, h]

/-- Witness for C4 with a configured storage state. -/
theorem create_order_empty_items_witness :
    create_order (some cOne) pEmpty = ⟨Resp.err 400 "No items in order", some cOne⟩ :=
  create_order_empty_items (some cOne) pEmpty rfl

/-! ### C8: response agrees with the persisted record -/

/-- C8: for every successful order with storage available and a working
insert, exactly one order record is appended, and the response's
`status` and `total` are the very `status` and `total_amount` of that
persisted record. -/
theorem create_order_persists_response (c : DBConn) (payload : CreateOrderInput)
    (h1 : payload.items ≠ [])
    (h4 : ∀ it ∈ payload.items, resolves_ok (some c) it = true)
    (h5 : c.insertFails = false) :
    ∃ ord : Order,
      create_order (some c) payload =
        ⟨Resp.ok (oidOfNat c.nextId) ord.status ord.total_amount,
         some { c with orders := c.orders ++ [ord], nextId := c.nextId + 1 }⟩ := by
  have hshape := create_order_ok_shape (some c) payload h1 h4
  have hcd : create_document (some c) "order"
      (built_order payload (payload.items.map (OrderItem.ofInput (some c)))
        ((payload.items.map (fun it => resolvedPrice (some c) it * it.quantity)).sum)) =
      Except.ok (oidOfNat c.nextId,
        { c with
          orders := c.orders ++
            [built_order payload (payload.items.map (OrderItem.ofInput (some c)))
              ((payload.items.map (fun it => resolvedPrice (some c) it * it.quantity)).sum)],
          nextId := c.nextId + 1 }) := by
    simp [create_document, h5]
  rw [hcd] at hshape
  exact ⟨built_order payload (payload.items.map (OrderItem.ofInput (some c)))
    ((payload.items.map (fun it => resolvedPrice (some c) it * it.quantity)).sum), hshape⟩

/-- Witness for C8: a card order resolved against the stored product. -/
theorem create_order_persists_response_witness :
    ∃ ord : Order,
      create_order (some cOne) pCard =
        ⟨Resp.ok (oidOfNat cOne.nextId) ord.status ord.total_amount,
         some { cOne with orders := cOne.orders ++ [ord], nextId := cOne.nextId + 1 }⟩ :=
  create_order_persists_response cOne pCard (by decide) (by decide) rfl

/-! ### C2: payment method and status -/

set_option maxRecDepth 10000 in
/-- C2 counterexample: for `payment_method = "bitcoin"` (outside
`{"card","cod"}`) the response status is `"pending"`, not `"paid"` as
the claim's normalisation clause asserts; the persisted record shows the
normalisation touches only its `payment_method` field (stored as
`"card"`) while its `status` stays `"pending"`. -/
theorem create_order_payment_status_cex :
    (create_order (some cOne) pBitcoin).resp =
      Resp.ok "000000000000000000000000" "pending" (499/50 : ℚ) ∧
    (ordersOf (create_order (some cOne) pBitcoin).db').map
        (fun o => (o.payment_method, o.status)) = [("card", "pending")] := by
  with_unfolding_all decide

/-- C2 as amended: every success response carries `status = "paid"` iff
the raw `payment_method` equals `"card"`, else `"pending"` — including
unrecognised methods, which therefore yield `"pending"`, not `"paid"`;
the order record built for persistence stores the normalised
`payment_method` (`"card"` when the raw value is outside
`{"card","cod"}`) together with that same raw-method-derived `status`.
A missing `payment_method` was already defaulted to `"card"` by the
request model, so it yields `"paid"`. -/
theorem create_order_payment_status (db : Option DBConn) (payload : CreateOrderInput) :
    (∀ oid st tot db2,
      create_order db payload = ⟨Resp.ok oid st tot, db2⟩ →
      st = (if payload.payment_method = "card" then "paid" else "pending")) ∧
    (∀ items total,
      (built_order payload items total).status =
        (if payload.payment_method = "card" then "paid" else "pending") ∧
      (built_order payload items total).payment_method =
        (if payload.payment_method ∈ (["card", "cod"] : List String)
         then payload.payment_method else "card")) := by
  constructor
  · intro oid st tot db2 h
    by_cases he : payload.items = []
    · simp [create_order, he] at h
    · cases hb : build_items db [] 0 payload.items with
      | error e =>
        cases e with
        | http code detail =>
          have hco : create_order db payload = ⟨Resp.err code detail, db⟩ := by
            simp [create_order, he, hb]
          rw [hco] at h
          simp at h
        | exn m =>
          have hco : create_order db payload = ⟨Resp.exn m, db⟩ := by
            simp [create_order, he, hb]
          rw [hco] at h
          simp at h
      | ok pr =>
        obtain ⟨items, total⟩ := pr
        cases hcd : create_document db "order" (built_order payload items total) with
        | error m =>
          have hco : create_order db payload =
              ⟨Resp.ok "demo-order-id"
                (if payload.payment_method = "card" then "paid" else "pending")
                (round2 total), db⟩ := by
            simp [create_order, he, hb, hcd]
          rw [hco] at h
          simp only [CreateOrderOutcome.mk.injEq, Resp.ok.injEq] at h
          exact h.1.2.1.symm
        | ok pr2 =>
          obtain ⟨oid2, c2⟩ := pr2
          have hco : create_order db payload =
              ⟨Resp.ok oid2
                (if payload.payment_method = "card" then "paid" else "pending")
                (round2 total), some c2⟩ := by
            simp [create_order, he, hb, hcd]
          rw [hco] at h
          simp only [CreateOrderOutcome.mk.injEq, Resp.ok.injEq] at h
          exact h.1.2.1.symm
  · intro items total
    exact ⟨rfl, rfl⟩

set_option maxRecDepth 10000 in
/-- Witness for C2's amended statement on the fallback card order. -/
theorem create_order_payment_status_witness :
    "paid" = (if pCard.payment_method = "card" then "paid" else "pending") :=
  (create_order_payment_status none pCard).1 "demo-order-id" "paid"
    (499/50 : ℚ) none (by with_unfolding_all decide)

/-! ### C3: unresolvable product references -/

/-- C3: with storage configured (and the stored product documents well
formed, as every document this program writes is), any request
containing an unresolvable `product_id` — not found, malformed, or hit
by a raising `find` — is answered by the 404 error naming an offending
`product_id`, and the storage state is returned unchanged: no order is
persisted. -/
theorem create_order_unresolvable_404 (c : DBConn) (payload : CreateOrderInput)
    (hwf : WFdb c = true)
    (hex : ∃ it ∈ payload.items, find_one_product c it.product_id = none) :
    ∃ it, it ∈ payload.items ∧ find_one_product c it.product_id = none ∧
      create_order (some c) payload =
        ⟨Resp.err 404 ("Product not found: " ++ it.product_id), some c⟩ := by
  have hex' : ∃ x ∈ payload.items,
      (find_one_product c x.product_id).isSome = false := by
    obtain ⟨it, hm, hn⟩ := hex
    exact ⟨it, hm, by simp [hn]⟩
  obtain ⟨l₁, bad, l₂, hsplit, hall, hbad⟩ :=
    exists_first_bad (fun x => (find_one_product c x.product_id).isSome)
      payload.items hex'
  have hbadn : find_one_product c bad.product_id = none := by
    cases hf : find_one_product c bad.product_id with
    | none => rfl
    | some d => rw [hf] at hbad; simp at hbad
  have hallok : ∀ it ∈ l₁, resolves_ok (some c) it = true := by
    intro it hit
    apply resolves_ok_of_found c it hwf
    have h := hall it hit
    intro hnone
    rw [hnone] at h
    simp at h
  have hne : payload.items ≠ [] := by
    rw [hsplit]
    simp
  refine ⟨bad, ?_, hbadn, ?_⟩
  · rw [hsplit]
    exact List.mem_append_right _ (List.mem_cons_self _ _)
  · unfold create_order
    rw [if_neg hne, hsplit,
      build_items_first_err (some c) _ l₁ bad l₂ hallok
        (resolve_item_not_found c bad hbadn) [] 0]

/-- Witness for C3: a malformed product id against the stored catalogue. -/
theorem create_order_unresolvable_404_witness :
    ∃ it, it ∈ pBadId.items ∧ find_one_product cOne it.product_id = none ∧
      create_order (some cOne) pBadId =
        ⟨Resp.err 404 ("Product not found: " ++ it.product_id), some cOne⟩ :=
  create_order_unresolvable_404 cOne pBadId (by decide)
    ⟨{ product_id := "zz", quantity := 1 }, by decide, by decide⟩

/-! ### C9: strict input order and fail-fast -/

/-- C9: items are processed strictly in input order and the loop fails
fast — when the items split as `l₁ ++ bad :: l₂` with every member of
`l₁` resolvable and `bad` unresolvable, the request fails with the 404
naming exactly `bad.product_id`, whatever `l₂` holds.  Since the suffix
`l₂` is universally quantified and never inspected, no lookup after the
first failure can influence the outcome. -/
theorem create_order_first_unresolvable (c : DBConn) (payload : CreateOrderInput)
    (l₁ : List OrderItemInput) (bad : OrderItemInput) (l₂ : List OrderItemInput)
    (hwf : WFdb c = true)
    (hsplit : payload.items = l₁ ++ bad :: l₂)
    (hres : ∀ it ∈ l₁, find_one_product c it.product_id ≠ none)
    (hbad : find_one_product c bad.product_id = none) :
    create_order (some c) payload =
      ⟨Resp.err 404 ("Product not found: " ++ bad.product_id), some c⟩ := by
  have hallok : ∀ it ∈ l₁, resolves_ok (some c) it = true :=
    fun it hit => resolves_ok_of_found c it hwf (hres it hit)
  have hne : payload.items ≠ [] := by
    rw [hsplit]
    simp
  unfold create_order
  rw [if_neg hne, hsplit,
    build_items_first_err (some c) _ l₁ bad l₂ hallok
      (resolve_item_not_found c bad hbad) [] 0]

/-- Witness for C9: resolvable first item, malformed second, arbitrary
third; the 404 names the second. -/
theorem create_order_first_unresolvable_witness :
    create_order (some cOne) pMixed =
      ⟨Resp.err 404 ("Product not found: " ++ "zz"), some cOne⟩ :=
  create_order_first_unresolvable cOne pMixed
    [{ product_id := "0123456789abcdef01234567", quantity := 1 }]
    { product_id := "zz", quantity := 2 }
    [{ product_id := "yy", quantity := 3 }]
    (by decide) (by decide) (by decide) (by decide)

/-! ### C5: degraded modes -/

/-- C5 counterexample: with storage configured but the `find` storage
call failing, the failure IS surfaced: `GET /api/products` propagates
the exception out of the handler instead of returning the demo item, and
`POST /api/orders` answers 404 instead of a 200 with fallback-price
totals.  Only the storage-unavailable (`db is None`) mode degrades as
the claim describes. -/
theorem storage_call_failure_surfaces_cex :
    list_products (some cFindFail) = Except.error "storage failure" ∧
    (create_order (some cFindFail) pCard).resp =
      Resp.err 404 ("Product not found: " ++ "0123456789abcdef01234567") :=
  ⟨rfl, rfl⟩

/-- C5 as amended: when no database is configured (`db is None`),
`GET /api/products` returns exactly the one hardcoded demo item with id
`"0"` and `POST /api/orders` with non-empty items succeeds with the
placeholder id `"demo-order-id"` and a total of 4.99 × quantity summed
over all items regardless of `product_id`; with a database configured,
only a failure of the order-insert call is recovered silently (success
with the placeholder id and the storage state unchanged) — a failing
product `find` yields a 404 and a failing product listing propagates the
error to the caller. -/
theorem degraded_mode_spec :
    (list_products none = Except.ok [fallback_product]) ∧
    (∀ payload : CreateOrderInput, payload.items ≠ [] →
      create_order none payload =
        ⟨Resp.ok "demo-order-id"
          (if payload.payment_method = "card" then "paid" else "pending")
          (round2 ((payload.items.map
            (fun it => (4.99 : ℚ) * it.quantity)).sum)), none⟩) ∧
    (∀ (c : DBConn) (payload : CreateOrderInput), c.insertFails = true →
      payload.items ≠ [] →
      (∀ it ∈ payload.items, resolves_ok (some c) it = true) →
      ∃ st tot, create_order (some c) payload =
        ⟨Resp.ok "demo-order-id" st tot, some c⟩) := by
  refine ⟨rfl, ?_, ?_⟩
  · intro payload hne
    exact create_order_ok_shape none payload hne (fun it _ => rfl)
  · intro c payload hins hne h4
    have hshape := create_order_ok_shape (some c) payload hne h4
    have hcd : create_document (some c) "order"
        (built_order payload (payload.items.map (OrderItem.ofInput (some c)))
          ((payload.items.map
            (fun it => resolvedPrice (some c) it * it.quantity)).sum)) =
        Except.error "storage failure" := by
      simp [create_document, hins]
    rw [hcd] at hshape
    exact ⟨_, _, hshape⟩

/-- Witness for C5's amended statement: the fallback order and the
insert-failure recovery. -/
theorem degraded_mode_spec_witness :
    create_order none pCard =
      ⟨Resp.ok "demo-order-id"
        (if pCard.payment_method = "card" then "paid" else "pending")
        (round2 ((pCard.items.map (fun it => (4.99 : ℚ) * it.quantity)).sum)),
       none⟩ ∧
    (∃ st tot, create_order (some cInsertFail) pCard =
      ⟨Resp.ok "demo-order-id" st tot, some cInsertFail⟩) :=
  ⟨degraded_mode_spec.2.1 pCard (by decide),
   degraded_mode_spec.2.2 cInsertFail pCard rfl (by decide) (by decide)⟩

/-! ### C6: seeding -/

/-- C6 counterexample: listing products does not trigger seeding.  On a
configured store whose product collection is empty, `GET /api/products`
returns the empty list — not the five seeded products — and, being a
pure read (its type returns no storage state), leaves the collection
empty.  Seeding happens only at process start (line 86), not in
`list_products`. -/
theorem list_products_no_seed_cex :
    list_products (some cEmpty) = Except.ok ([] : List Doc) ∧
    (productsOf (seed_products (some cEmpty))).length = 5 :=
  ⟨rfl, rfl⟩

lemma foldl_insert_length (ps : List Product) (c : DBConn) :
    (ps.foldl (fun acc p => insert_product acc p.model_dump) c).products.length =
      c.products.length + ps.length := by
  induction ps generalizing c with
  | nil => simp
  | cons p t ih =>
    rw [List.foldl_cons, ih]
    simp [insert_product]
    omega

/-- C6 as amended: seeding is triggered by process start, not by
listing.  `seed_products` is a no-op when persistence is unavailable or
the collection already holds at least one record (hence idempotent);
run on an empty collection it inserts exactly the 5 sample products with
the literal titles of the spec.  Listing on an empty collection simply
returns the empty list without seeding. -/
theorem seed_products_spec :
    seed_products none = none ∧
    (∀ c : DBConn, c.products ≠ [] → seed_products (some c) = some c) ∧
    (∀ c : DBConn, c.products = [] →
      (productsOf (seed_products (some c))).map (fun d => dget d "title") =
        [Value.vStr "Free-Range Eggs (12 pcs)", Value.vStr "Organic Eggs (12 pcs)",
         Value.vStr "Omega-3 Enriched Eggs (12 pcs)", Value.vStr "Quail Eggs (24 pcs)",
         Value.vStr "Duck Eggs (6 pcs)"]) ∧
    (∀ db : Option DBConn, seed_products (seed_products db) = seed_products db) ∧
    (∀ c : DBConn, c.findFails = false → c.products = [] →
      list_products (some c) = Except.ok []) := by
  refine ⟨rfl, ?_, ?_, ?_, ?_⟩
  · intro c hc
    simp [seed_products, List.length_pos, hc]
  · intro c hc
    simp [seed_products, hc, sample_products, insert_product, Product.model_dump,
      productsOf, dget, lookup_cons]
  · intro db
    cases db with
    | none => rfl
    | some c =>
      by_cases hc : c.products = []
      · have h1 : seed_products (some c) =
            some (sample_products.foldl (fun acc p => insert_product acc p.model_dump) c) := by
          simp [seed_products, hc]
        have h5 : (sample_products.foldl
            (fun acc p => insert_product acc p.model_dump) c).products.length = 5 := by
          rw [foldl_insert_length]
          simp [hc, sample_products]
        rw [h1]
        simp [seed_products, h5]
      · have h1 : seed_products (some c) = some c := by
          simp [seed_products, List.length_pos, hc]
        rw [h1, h1]
  · intro c hf hc
    simp [list_products, hf, hc]

/-- Witness for C6's amended statement at concrete states. -/
theorem seed_products_spec_witness :
    seed_products (some cOne) = some cOne ∧
    (productsOf (seed_products (some cEmpty))).map (fun d => dget d "title") =
      [Value.vStr "Free-Range Eggs (12 pcs)", Value.vStr "Organic Eggs (12 pcs)",
       Value.vStr "Omega-3 Enriched Eggs (12 pcs)", Value.vStr "Quail Eggs (24 pcs)",
       Value.vStr "Duck Eggs (6 pcs)"] ∧
    list_products (some cEmpty) = Except.ok [] :=
  ⟨seed_products_spec.2.1 cOne (by decide),
   seed_products_spec.2.2.1 cEmpty rfl,
   seed_products_spec.2.2.2.2 cEmpty rfl rfl⟩
